import Mathlib

/-!
Verification of the trust0 service-proxy plane against its source.

The definitions below are a shallow embedding of the Rust code:

* `crates/client/src/service/manager.rs` — `ServiceMgr` (client side),
* `crates/gateway/src/service/manager.rs` — `GatewayServiceMgr`,
* `crates/gateway/src/repository/{access_repo,service_repo}/in_memory_repo.rs`,
* `crates/common/src/crypto/asn.rs` — `stringify_asn_value`,
* `crates/common/src/net/tcp_server/conn_std.rs` — `Connection::shutdown`.

Rust `HashMap`s are embedded as association lists with insert-or-replace
semantics; `u64` ids as `Nat`; fallible calls as `Except String`.  Mutation
is explicit state passing; where a method's only observable effect is a set
of calls into per-service visitor objects (trait objects whose
implementations live outside these files), the embedding returns the list
of calls made, in order.
-/

/-- Association-list embedding of `HashMap::get` (first matching key). -/
def alookup {κ β : Type} [DecidableEq κ] : List (κ × β) → κ → Option β
  | [], _ => none
  | (k, v) :: rest, k' => if k = k' then some v else alookup rest k'

/-- Association-list embedding of `HashMap::insert`: replace the entry when
the key is present, otherwise append a new entry. -/
def ainsert {κ β : Type} [DecidableEq κ] : List (κ × β) → κ → β → List (κ × β)
  | [], k, v => [(k, v)]
  | (k0, v0) :: rest, k, v =>
      if k0 = k then (k, v) :: rest else (k0, v0) :: ainsert rest k v

/-- Keys of an association list. -/
def akeys {κ β : Type} (m : List (κ × β)) : List κ := m.map Prod.fst

/-- Number of entries stored under a key (1 for a well-formed map holding
the key, 0 otherwise). -/
def countKey {κ β : Type} [DecidableEq κ] (m : List (κ × β)) (k : κ) : Nat :=
  (m.filter (fun p => decide (p.1 = k))).length

theorem alookup_ainsert_self {κ β : Type} [DecidableEq κ]
    (m : List (κ × β)) (k : κ) (v : β) : alookup (ainsert m k v) k = some v := by
  induction m with
  | nil => simp [ainsert, alookup]
  | cons p rest ih =>
      by_cases h : p.1 = k
      · simp [ainsert, h, alookup]
      · simp [ainsert, h, alookup, ih]

theorem ainsert_of_not_mem {κ β : Type} [DecidableEq κ]
    (m : List (κ × β)) (k : κ) (v : β) (h : k ∉ akeys m) :
    ainsert m k v = m ++ [(k, v)] := by
  induction m with
  | nil => simp [ainsert]
  | cons p rest ih =>
      simp only [akeys, List.map_cons, List.mem_cons] at h
      push_neg at h
      have h1 : p.1 ≠ k := fun hk => h.1 hk.symm
      have h2 : k ∉ akeys rest := by
        simpa [akeys] using h.2
      simp [ainsert, h1, ih h2]

theorem countKey_ainsert_fresh {κ β : Type} [DecidableEq κ]
    (m : List (κ × β)) (k : κ) (v : β) (h : countKey m k = 0) :
    countKey (ainsert m k v) k = 1 := by
  induction m with
  | nil => simp [ainsert, countKey]
  | cons p rest ih =>
      by_cases hp : p.1 = k
      · exfalso
        simp [countKey, List.filter, hp] at h
      · simp only [countKey, List.filter, hp, decide_eq_true_eq] at h ⊢
        simp only [ainsert, hp, if_false]
        simpa [countKey, List.filter, hp] using ih (by simpa [countKey, List.filter, hp] using h)

/-! ## Data model (`trust0_common::model`) -/

/-- `Transport` from `common/src/model/service.rs`. -/
inductive Transport
  | TCP
  | UDP
deriving DecidableEq

/-- `Service` record. -/
structure Service where
  service_id : Nat
  name : String
  transport : Transport
  host : String
  port : Nat
deriving DecidableEq

/-- `ServiceAccess` record (`common/src/model/access.rs`). -/
structure ServiceAccess where
  user_id : Nat
  service_id : Nat
deriving DecidableEq

/-- `ProxyAddrs(client_port, gateway_host, gateway_port)` from the client
service manager. -/
structure ProxyAddrs where
  client_port : Nat
  gateway_host : String
  gateway_port : Nat
deriving DecidableEq

/-! ## Client service manager (`crates/client/src/service/manager.rs`)

The per-service `ClientServiceProxy` and visitor objects are built by
external constructors (`TcpClientProxyServerVisitor::new`, ...); the
embedding records the constructor arguments that the manager passes, and
models the construction as succeeding (its failure modes are socket-level
and lie outside the embedded files). -/

/-- Value stored in `service_proxy_visitors` by the client manager. -/
structure ClientProxyVisitorState where
  service : Service
  client_port : Nat
  gateway_host : String
  gateway_port : Nat
deriving DecidableEq

/-- Value stored in `service_proxies` by the client manager. -/
structure ClientProxyState where
  transport : Transport
  client_port : Nat
deriving DecidableEq

/-- State of the client-side `ServiceMgr` (its `HashMap` fields). -/
structure ServiceMgr where
  service_proxies : List (Nat × ClientProxyState)
  service_proxy_visitors : List (Nat × ClientProxyVisitorState)
  service_proxy_threads : List (Nat × Unit)
  service_addrs : List (Nat × ProxyAddrs)
  services_by_proxy_key : List (String × Nat)
deriving DecidableEq

/-- `ServiceMgr::startup`: if `service_addrs` already holds the service id,
return a copy of the stored `ProxyAddrs` and leave every map untouched;
otherwise build the transport-specific proxy/visitor pair, spawn the worker
thread and insert into all four maps, returning the given addresses. -/
def ServiceMgr.startup (st : ServiceMgr) (service : Service) (proxy_addrs : ProxyAddrs) :
    ServiceMgr × Except String ProxyAddrs :=
  match alookup st.service_addrs service.service_id with
  | some stored =>
      (st, .ok ⟨stored.client_port, stored.gateway_host, stored.gateway_port⟩)
  | none =>
      let visitor : ClientProxyVisitorState :=
        ⟨service, proxy_addrs.client_port, proxy_addrs.gateway_host, proxy_addrs.gateway_port⟩
      let proxy : ClientProxyState := ⟨service.transport, proxy_addrs.client_port⟩
      ({ st with
          service_addrs := ainsert st.service_addrs service.service_id proxy_addrs
          service_proxies := ainsert st.service_proxies service.service_id proxy
          service_proxy_visitors := ainsert st.service_proxy_visitors service.service_id visitor
          service_proxy_threads := ainsert st.service_proxy_threads service.service_id () },
       .ok proxy_addrs)

/-- Rust `u64::MAX`, the sentinel used when a proxy key is absent from the
`services_by_proxy_key` registry. -/
def u64Max : Nat := 18446744073709551615

/-- One `ProxyEvent::Closed(proxy_key)` iteration of the client
`ServiceMgr::poll_proxy_events` loop, returning the list of
`remove_proxy_for_key` calls made, as `(service_id, proxy_key)` pairs: the
registry resolves the key (defaulting to `u64::MAX`), and the visitor for
the resolved service — when present — receives the call. -/
def ServiceMgr.pollClosedEvent (st : ServiceMgr) (proxy_key : String) :
    List (Nat × String) :=
  let service_id := (alookup st.services_by_proxy_key proxy_key).getD u64Max
  match alookup st.service_proxy_visitors service_id with
  | some _ => [(service_id, proxy_key)]
  | none => []

/-! ## Gateway service manager (`crates/gateway/src/service/manager.rs`) -/

/-- Value stored in `service_proxy_visitors` by the gateway manager.  The
visitor's own `shutdown_connections` implementation lives outside the
embedded file; `shutdown_ok` records whether that call succeeds. -/
structure GatewayProxyVisitorState where
  service : Service
  gateway_host : Option String
  service_port : Nat
  shutdown_ok : Bool
deriving DecidableEq

/-- Value stored in `service_proxies` by the gateway manager. -/
structure GatewayProxyState where
  transport : Transport
  service_port : Nat
deriving DecidableEq

/-- State of `GatewayServiceMgr` (maps, port allocator and the
`gateway_service_host` configuration value). -/
structure GatewayServiceMgr where
  service_proxies : List (Nat × GatewayProxyState)
  service_proxy_visitors : List (Nat × GatewayProxyVisitorState)
  service_proxy_threads : List (Nat × Unit)
  services_by_proxy_key : List (String × Nat)
  service_ports : List (Nat × Nat)
  shared_service_port : Option Nat
  next_service_port : Nat
  last_service_port : Nat
  gateway_service_host : Option String
deriving DecidableEq

/-- `GatewayServiceMgr::startup`: return the stored port when the service
is already started; otherwise allocate a port (the shared port, or the next
free port of the distinct range — exhaustion is a hard error taken before
any state change), build the proxy/visitor pair, spawn the listener thread
only in distinct-port mode, and insert into the maps.

`next_service_port` is a `u16` in the source; the increment
`self.next_service_port += 1` followed by `self.next_service_port - 1`
is embedded with wrapping (`% 65536`) arithmetic, the release-build
semantics — at `next_service_port = 65535` the counter wraps to 0 and the
allocated port is still 65535 (a debug build would instead panic on the
overflow). -/
def GatewayServiceMgr.startup (st : GatewayServiceMgr) (service : Service) :
    GatewayServiceMgr × Except String (Option String × Nat) :=
  match alookup st.service_ports service.service_id with
  | some service_port => (st, .ok (st.gateway_service_host, service_port))
  | none =>
      match st.shared_service_port with
      | some port =>
          let visitor : GatewayProxyVisitorState :=
            ⟨service, st.gateway_service_host, port, true⟩
          let proxy : GatewayProxyState := ⟨service.transport, port⟩
          ({ st with
              service_ports := ainsert st.service_ports service.service_id port
              service_proxies := ainsert st.service_proxies service.service_id proxy
              service_proxy_visitors :=
                ainsert st.service_proxy_visitors service.service_id visitor },
           .ok (st.gateway_service_host, port))
      | none =>
          if st.next_service_port > st.last_service_port then
            (st, .error "Service ports exhausted, please extend range")
          else
            let next2 := (st.next_service_port + 1) % 65536
            let port := (next2 + 65535) % 65536
            let visitor : GatewayProxyVisitorState :=
              ⟨service, st.gateway_service_host, port, true⟩
            let proxy : GatewayProxyState := ⟨service.transport, port⟩
            ({ st with
                next_service_port := next2
                service_ports := ainsert st.service_ports service.service_id port
                service_proxies := ainsert st.service_proxies service.service_id proxy
                service_proxy_visitors :=
                  ainsert st.service_proxy_visitors service.service_id visitor
                service_proxy_threads :=
                  ainsert st.service_proxy_threads service.service_id () },
             .ok (st.gateway_service_host, port))

/-- Boolean form of the gateway `shutdown_connections` service filter:
`service_id.is_none() || (*proxy_service_id == service_id.unwrap())`. -/
def serviceFilterMatches (service_id : Option Nat) (proxy_service_id : Nat) : Bool :=
  match service_id with
  | none => true
  | some sid => proxy_service_id = sid

/-- `GatewayServiceMgr::shutdown_connections`: iterate the visitors in map
order; for each visitor passing the service filter, call its
`shutdown_connections` with the user filter, collecting failures; the
manager's own maps are not modified.  Returns the (unchanged) state, the
ordered list of visitor calls as `(service_id, user_id_filter)` pairs, and
the aggregated result. -/
def GatewayServiceMgr.shutdown_connections (st : GatewayServiceMgr)
    (user_id : Option Nat) (service_id : Option Nat) :
    GatewayServiceMgr × List (Nat × Option Nat) × Except String Unit :=
  let acc := st.service_proxy_visitors.foldl
    (fun (acc : List (Nat × Option Nat) × List String) p =>
      if serviceFilterMatches service_id p.1 then
        if p.2.shutdown_ok then
          (acc.1 ++ [(p.1, user_id)], acc.2)
        else
          (acc.1 ++ [(p.1, user_id)],
           acc.2 ++ ["Failed shutting down service proxy connection"])
      else acc)
    ([], [])
  (st, acc.1,
    if acc.2.isEmpty then .ok ()
    else .error "Error shutting down services")

/-- `GatewayServiceMgr::on_closed_proxy`: resolve the service id through
the proxy-key registry (defaulting to `u64::MAX`) and, when a visitor is
registered under the resolved id, call its `remove_proxy_for_key`.
Returns the list of `remove_proxy_for_key` calls made. -/
def GatewayServiceMgr.on_closed_proxy (st : GatewayServiceMgr) (proxy_key : String) :
    List (Nat × String) :=
  let service_id := (alookup st.services_by_proxy_key proxy_key).getD u64Max
  match alookup st.service_proxy_visitors service_id with
  | some _ => [(service_id, proxy_key)]
  | none => []

/-! ## In-memory repositories
(`crates/gateway/src/repository/{access_repo,service_repo}/in_memory_repo.rs`)

`connect_to_datasource` first reads the whole file, then parses the whole
JSON array, and only then `put`s the records one by one.  File reading and
JSON parsing are external (`std::fs`, `serde_json`); the embedding takes
their combined outcome as input. -/

/-- Outcome of the external read-then-parse prefix of
`connect_to_datasource`: the file read fails, the JSON parse fails, or a
list of records is produced. -/
inductive LoadInput (α : Type)
  | readFailure
  | parseFailure
  | parsed (records : List α)

/-- `InMemAccessRepo::connect_to_datasource`: on a read or parse failure
return the corresponding error without touching the map; otherwise `put`
each parsed record in order (keyed on `(user_id, service_id)`). -/
def InMemAccessRepo.connect_to_datasource
    (accesses : List ((Nat × Nat) × ServiceAccess)) (input : LoadInput ServiceAccess) :
    List ((Nat × Nat) × ServiceAccess) × Except String Unit :=
  match input with
  | .readFailure => (accesses, .error "Failed to read file")
  | .parseFailure => (accesses, .error "Failed to parse JSON")
  | .parsed records =>
      (records.foldl (fun m a => ainsert m (a.user_id, a.service_id) a) accesses, .ok ())

/-- `InMemServiceRepo::connect_to_datasource`: same shape, keyed on
`service_id`. -/
def InMemServiceRepo.connect_to_datasource
    (services : List (Nat × Service)) (input : LoadInput Service) :
    List (Nat × Service) × Except String Unit :=
  match input with
  | .readFailure => (services, .error "Failed to read file")
  | .parseFailure => (services, .error "Failed to parse JSON")
  | .parsed records =>
      (records.foldl (fun m s => ainsert m s.service_id s) services, .ok ())

/-! ## ASN.1 attribute decoder (`crates/common/src/crypto/asn.rs`)

`stringify_asn_value` dispatches on the header tag of an `Any` value and
converts via the `asn1_rs` accessors.  The embedding carries, per tag, the
value the external accessor would decode (`AsnContent`); an accessor
applied to content of the wrong shape fails, which the source turns into
the `Failed ASN value conversion` error.  The `Tag::Integer` branch calls
`as_i64().unwrap()`, which panics when the decoded integer does not fit in
`i64`; the embedding keeps that outcome distinct (`AsnResult.panicked`). -/

/-- The ASN.1 tags distinguished by `stringify_asn_value`; `unsupported n`
stands for any tag outside the twelve supported ones. -/
inductive AsnTag
  | boolean
  | enumerated
  | generalizedTime
  | generalString
  | ia5String
  | integer
  | octetString
  | oid
  | relativeOid
  | printableString
  | utcTime
  | utf8String
  | unsupported (code : Nat)
deriving DecidableEq

/-- Decoded content of an ASN.1 value, as produced by the external
`asn1_rs` accessors: `bool()` yields a boolean, `enumerated().0` a `u32`,
`integer()` an arbitrary-precision integer, `octetstring()` raw bytes,
`oid()` (after `format_oid`) a formatted string, and the time/string
accessors their textual value. -/
inductive AsnContent
  | boolean (b : Bool)
  | enumerated (v : Nat)
  | generalizedTime (s : String)
  | generalString (s : String)
  | ia5String (s : String)
  | integer (i : Int)
  | octetString (bytes : List Nat)
  | oid (formatted : String)
  | relativeOid (formatted : String)
  | printableString (s : String)
  | utcTime (s : String)
  | utf8String (s : String)
deriving DecidableEq

/-- An ASN.1 `Any` value: header tag plus content. -/
structure AsnAny where
  tag : AsnTag
  content : AsnContent
deriving DecidableEq

/-- The two error shapes produced by `stringify_asn_value`:
`GenWithMsgAndErr("Failed ASN value conversion", ..)` and
`General("unsupported tag <tag>")`. -/
inductive AsnError
  | conversion
  | unsupportedTag (t : AsnTag)
deriving DecidableEq

/-- Outcome of `stringify_asn_value`: a string, an `AppError`, or a panic
(reachable through the `unwrap()` in the `Tag::Integer` branch). -/
inductive AsnResult
  | ok (s : String)
  | fail (e : AsnError)
  | panicked
deriving DecidableEq

/-- Lowercase-hex rendering of one byte, Rust `format!("{:02x}", x)`. -/
def hexByte (n : Nat) : String :=
  String.mk [Nat.digitChar (n / 16 % 16), Nat.digitChar (n % 16)]

/-- `iter().map(|x| format!("{:02x}", x)).collect::<String>()`. -/
def hexOfBytes (bytes : List Nat) : String :=
  bytes.foldl (fun acc x => acc ++ hexByte x) ""

/-- The `i64` range accepted by `Integer::as_i64`. -/
def fitsI64 (i : Int) : Prop := -(2 ^ 63) ≤ i ∧ i < 2 ^ 63

instance : DecidablePred fitsI64 := fun _ => instDecidableAnd

/-- `stringify_asn_value`, arm by arm.  In every supported arm the
accessor's failure (content of the wrong shape) becomes the conversion
error; the default arm produces the unsupported-tag error. -/
def stringify_asn_value (a : AsnAny) : AsnResult :=
  match a.tag with
  | .boolean =>
      match a.content with
      | .boolean b => .ok (if b then "true" else "false")
      | _ => .fail .conversion
  | .enumerated =>
      match a.content with
      | .enumerated v => .ok (Nat.repr v)
      | _ => .fail .conversion
  | .generalizedTime =>
      match a.content with
      | .generalizedTime s => .ok s
      | _ => .fail .conversion
  | .generalString =>
      match a.content with
      | .generalString s => .ok s
      | _ => .fail .conversion
  | .ia5String =>
      match a.content with
      | .ia5String s => .ok s
      | _ => .fail .conversion
  | .integer =>
      match a.content with
      | .integer i => if fitsI64 i then .ok (Int.repr i) else .panicked
      | _ => .fail .conversion
  | .octetString =>
      match a.content with
      | .octetString bytes => .ok (hexOfBytes bytes)
      | _ => .fail .conversion
  | .oid =>
      match a.content with
      | .oid formatted => .ok formatted
      | _ => .fail .conversion
  | .relativeOid =>
      match a.content with
      | .relativeOid formatted => .ok formatted
      | _ => .fail .conversion
  | .printableString =>
      match a.content with
      | .printableString s => .ok s
      | _ => .fail .conversion
  | .utcTime =>
      match a.content with
      | .utcTime s => .ok s
      | _ => .fail .conversion
  | .utf8String =>
      match a.content with
      | .utf8String s => .ok s
      | _ => .fail .conversion
  | .unsupported n => .fail (.unsupportedTag (.unsupported n))

/-- A valid encoding for the header tag: the content has the shape the
tag's accessor decodes (for `INTEGER`, additionally fitting in `i64`, the
only case the source converts without panicking). -/
def validContent : AsnAny → Bool
  | ⟨.boolean, .boolean _⟩ => true
  | ⟨.enumerated, .enumerated _⟩ => true
  | ⟨.generalizedTime, .generalizedTime _⟩ => true
  | ⟨.generalString, .generalString _⟩ => true
  | ⟨.ia5String, .ia5String _⟩ => true
  | ⟨.integer, .integer i⟩ => decide (fitsI64 i)
  | ⟨.octetString, .octetString _⟩ => true
  | ⟨.oid, .oid _⟩ => true
  | ⟨.relativeOid, .relativeOid _⟩ => true
  | ⟨.printableString, .printableString _⟩ => true
  | ⟨.utcTime, .utcTime _⟩ => true
  | ⟨.utf8String, .utf8String _⟩ => true
  | _ => false

/-- Whether decoded content is non-empty: numeric and boolean values
always are; byte and text content when the bytes or text are. -/
def contentNonempty : AsnContent → Bool
  | .boolean _ => true
  | .enumerated _ => true
  | .integer _ => true
  | .octetString bytes => decide (bytes ≠ [])
  | .generalizedTime s => decide (s ≠ "")
  | .generalString s => decide (s ≠ "")
  | .ia5String s => decide (s ≠ "")
  | .oid s => decide (s ≠ "")
  | .relativeOid s => decide (s ≠ "")
  | .printableString s => decide (s ≠ "")
  | .utcTime s => decide (s ≠ "")
  | .utf8String s => decide (s ≠ "")

/-! ## TCP connection shutdown (`crates/common/src/net/tcp_server/conn_std.rs`) -/

/-- `ConnectionEvent` from `conn_std.rs`. -/
inductive ConnectionEvent
  | Closing
  | Closed
  | Write (data : List Nat)
deriving DecidableEq

/-- Observable state of one `Connection` for the shutdown path: the
`closed` flag, the number of `TcpStream::shutdown(Shutdown::Both)` calls
performed, the events enqueued on the connection's channel, and the number
of visitor `on_shutdown` invocations. -/
structure ConnState where
  closed : Bool
  stream_shutdowns : Nat
  events : List ConnectionEvent
  on_shutdown_calls : Nat
deriving DecidableEq

/-- `Connection::shutdown`: an already-closed connection returns `Ok(())`
immediately; otherwise the TCP stream is shut down in both directions
(`os_ok` is the outcome of that external call — on failure the method
returns the error before setting `closed`), the `closed` flag is set,
one `ConnectionEvent::Closed` is enqueued (a send failure is only logged),
and the visitor's `on_shutdown` is invoked and its result returned. -/
def Connection.shutdown (os_ok : Bool) (st : ConnState) : ConnState × Except String Unit :=
  if st.closed then (st, .ok ())
  else if os_ok then
    ({ closed := true
       stream_shutdowns := st.stream_shutdowns + 1
       events := st.events ++ [ConnectionEvent.Closed]
       on_shutdown_calls := st.on_shutdown_calls + 1 },
     .ok ())
  else (st, .error "Error shutting down TCP connection")

/-! ## Helper lemmas -/

theorem toDigitsCore_length_le (b : Nat) :
    ∀ (f n : Nat) (ds : List Char), ds.length ≤ (Nat.toDigitsCore b f n ds).length := by
  intro f
  induction f with
  | zero => intro n ds; simp [Nat.toDigitsCore]
  | succ f ih =>
      intro n ds
      simp only [Nat.toDigitsCore]
      by_cases h : n / b = 0
      · simp [h]
      · simp only [h, if_false]
        calc ds.length ≤ (Nat.digitChar (n % b) :: ds).length := by simp
          _ ≤ _ := ih _ _

theorem nat_repr_length_pos (n : Nat) : 0 < (Nat.repr n).length := by
  unfold Nat.repr Nat.toDigits
  rw [List.length_asString]
  simp only [Nat.toDigitsCore]
  by_cases h : n / 10 = 0
  · simp [h]
  · simp only [h, if_false]
    calc 0 < 1 := Nat.one_pos
      _ = ([Nat.digitChar (n % 10)] : List Char).length := rfl
      _ ≤ _ := toDigitsCore_length_le 10 n (n / 10) _

theorem nat_repr_ne_empty (n : Nat) : Nat.repr n ≠ "" := by
  intro h
  have hp := nat_repr_length_pos n
  rw [h] at hp
  simp at hp

theorem int_repr_ne_empty (i : Int) : Int.repr i ≠ "" := by
  cases i with
  | ofNat m => exact nat_repr_ne_empty m
  | negSucc m =>
      intro h
      have hlen : ("-" ++ Nat.repr (Nat.succ m)).length = 0 := by
        rw [show ("-" ++ Nat.repr (Nat.succ m)) = Int.repr (Int.negSucc m) from rfl, h]
        rfl
      rw [String.length_append] at hlen
      have h1 : ("-" : String).length = 1 := rfl
      rw [h1] at hlen
      omega

theorem bool_string_ne_empty (b : Bool) : (if b then "true" else "false") ≠ "" := by
  cases b <;> decide

theorem hexFoldl_length (l : List Nat) :
    ∀ a : String, a.length ≤ (l.foldl (fun acc x => acc ++ hexByte x) a).length := by
  induction l with
  | nil => intro a; exact Nat.le_refl _
  | cons x xs ih =>
      intro a
      calc a.length ≤ (a ++ hexByte x).length := by
            rw [String.length_append]; omega
        _ ≤ _ := ih (a ++ hexByte x)

theorem hexOfBytes_ne_empty (l : List Nat) (h : l ≠ []) : hexOfBytes l ≠ "" := by
  cases l with
  | nil => exact absurd rfl h
  | cons x xs =>
      intro hempty
      have h2 : ("" ++ hexByte x).length ≤ (hexOfBytes (x :: xs)).length :=
        hexFoldl_length xs ("" ++ hexByte x)
      rw [hempty] at h2
      have h3 : ("" ++ hexByte x).length = 2 := by
        rw [String.length_append]; rfl
      rw [h3] at h2
      simp at h2

theorem stringify_ok_of_valid (a : AsnAny) (hv : validContent a = true) :
    ∃ s, stringify_asn_value a = .ok s ∧ (contentNonempty a.content = true → s ≠ "") := by
  obtain ⟨t, c⟩ := a
  cases t <;> cases c <;>
    first
      | exact (Bool.false_ne_true hv).elim
      | exact ⟨_, rfl, fun h => of_decide_eq_true h⟩
      | exact ⟨_, rfl, fun _ => bool_string_ne_empty _⟩
      | exact ⟨_, rfl, fun _ => nat_repr_ne_empty _⟩
      | exact ⟨_, rfl, fun h => hexOfBytes_ne_empty _ (of_decide_eq_true h)⟩
      | exact ⟨_, if_pos (of_decide_eq_true hv), fun _ => int_repr_ne_empty _⟩

theorem foldl_ainsert_eq_map {κ α : Type} [DecidableEq κ] (key : α → κ) :
    ∀ (rs : List α) (acc : List (κ × α)),
      (∀ r ∈ rs, key r ∉ akeys acc) → (rs.map key).Nodup →
      rs.foldl (fun m r => ainsert m (key r) r) acc = acc ++ rs.map (fun r => (key r, r)) := by
  intro rs
  induction rs with
  | nil => intro acc _ _; simp
  | cons r rs ih =>
      intro acc hdisj hnodup
      simp only [List.foldl_cons]
      rw [ainsert_of_not_mem acc (key r) r (hdisj r (List.mem_cons_self r rs))]
      rw [List.map_cons, List.nodup_cons] at hnodup
      have hdisj2 : ∀ r2 ∈ rs, key r2 ∉ akeys (acc ++ [(key r, r)]) := by
        intro r2 hr2
        simp only [akeys, List.map_append, List.mem_append, List.map_cons, List.map_nil,
          List.mem_singleton]
        push_neg
        refine ⟨hdisj r2 (List.mem_cons_of_mem r hr2), ?_⟩
        intro hk
        exact hnodup.1 (hk ▸ List.mem_map_of_mem key hr2)
      rw [ih (acc ++ [(key r, r)]) hdisj2 hnodup.2]
      simp

/-- Already-started branch of `GatewayServiceMgr::startup`: the stored port
is returned and no state changes. -/
theorem gateway_startup_stored (st : GatewayServiceMgr) (service : Service) (p : Nat)
    (h : alookup st.service_ports service.service_id = some p) :
    GatewayServiceMgr.startup st service = (st, .ok (st.gateway_service_host, p)) := by
  unfold GatewayServiceMgr.startup
  rw [h]

/-- Exhaustion branch of `GatewayServiceMgr::startup` in distinct-port
mode: when the number of ports handed out has filled the whole range, a
call for a fresh service id is a hard error with no state change. -/
theorem gateway_startup_exhausted (st : GatewayServiceMgr) (service : Service) (startPort : Nat)
    (hshared : st.shared_service_port = none)
    (hinv : st.next_service_port = startPort + st.service_ports.length)
    (hfull : st.service_ports.length = st.last_service_port - startPort + 1)
    (hle : startPort ≤ st.last_service_port)
    (hfresh : alookup st.service_ports service.service_id = none) :
    GatewayServiceMgr.startup st service
      = (st, .error "Service ports exhausted, please extend range") := by
  have hgt : st.last_service_port < st.next_service_port := by omega
  unfold GatewayServiceMgr.startup
  rw [hfresh, hshared]
  simp only [gt_iff_lt, hgt, if_true]

theorem shutdown_calls_foldl (user_id service_id : Option Nat) :
    ∀ (vs : List (Nat × GatewayProxyVisitorState)) (acc : List (Nat × Option Nat) × List String),
      (vs.foldl
        (fun (acc : List (Nat × Option Nat) × List String) p =>
          if serviceFilterMatches service_id p.1 then
            if p.2.shutdown_ok then
              (acc.1 ++ [(p.1, user_id)], acc.2)
            else
              (acc.1 ++ [(p.1, user_id)],
               acc.2 ++ ["Failed shutting down service proxy connection"])
          else acc)
        acc).1
      = acc.1 ++ (vs.filter (fun p => serviceFilterMatches service_id p.1)).map
          (fun p => (p.1, user_id)) := by
  intro vs
  induction vs with
  | nil => intro acc; simp
  | cons p vs ih =>
      intro acc
      simp only [List.foldl_cons, List.filter_cons]
      by_cases hm : serviceFilterMatches service_id p.1
      · by_cases hok : p.2.shutdown_ok
        · simp [hm, hok, ih]
        · simp [hm, hok, ih]
      · simp [hm, ih]

theorem calls_filter_complement (user_id service_id : Option Nat)
    (vs : List (Nat × GatewayProxyVisitorState)) :
    ((vs.filter (fun p => serviceFilterMatches service_id p.1)).map
        (fun p => (p.1, user_id))).filter
      (fun c => !serviceFilterMatches service_id c.1) = [] := by
  induction vs with
  | nil => rfl
  | cons p vs ih =>
      by_cases hm : serviceFilterMatches service_id p.1
      · simp only [List.filter_cons, hm, if_true, List.map_cons, List.filter_cons]
        simp [hm, ih]
      · simp [List.filter_cons, hm, ih]

theorem calls_map_snd (user_id service_id : Option Nat)
    (vs : List (Nat × GatewayProxyVisitorState)) :
    ((vs.filter (fun p => serviceFilterMatches service_id p.1)).map
        (fun p => (p.1, user_id))).map Prod.snd
      = List.replicate
          ((vs.filter (fun p => serviceFilterMatches service_id p.1)).length) user_id := by
  induction vs with
  | nil => rfl
  | cons p vs ih =>
      by_cases hm : serviceFilterMatches service_id p.1
      · simp [List.filter_cons, hm, ih, List.replicate_succ]
      · simp [List.filter_cons, hm, ih]

/-! ## Claim theorems -/

/-- C1: client-side `ServiceMgr::startup` is idempotent per `service_id`.
Once a call `startup(S, A)` has succeeded with result `r`, a further call
with the same `service_id` — whatever addresses it passes — returns `Ok`
with the stored `ProxyAddrs` `r` and leaves every manager map (proxies,
visitors, threads, addresses) unchanged; starting from a state with no
entry for the service, the proxy map holds exactly one listener entry for
it afterwards. -/
theorem client_startup_idempotent (st st1 : ServiceMgr) (svc svc2 : Service)
    (a a2 r : ProxyAddrs)
    (hid : svc2.service_id = svc.service_id)
    (h : ServiceMgr.startup st svc a = (st1, .ok r)) :
    ServiceMgr.startup st1 svc2 a2 = (st1, .ok r) ∧
    alookup st1.service_addrs svc.service_id = some r ∧
    (alookup st.service_addrs svc.service_id = none →
      countKey st.service_proxies svc.service_id = 0 →
      countKey st1.service_proxies svc.service_id = 1) := by
  cases hlk : alookup st.service_addrs svc.service_id with
  | some stored =>
      simp only [ServiceMgr.startup, hlk, Prod.mk.injEq, Except.ok.injEq] at h
      obtain ⟨hst, hr⟩ := h
      subst hst
      subst hr
      refine ⟨?_, ?_, ?_⟩
      · simp only [ServiceMgr.startup, hid, hlk]
      · rw [hlk]
      · intro hnone _
        exact Option.noConfusion hnone
  | none =>
      simp only [ServiceMgr.startup, hlk, Prod.mk.injEq, Except.ok.injEq] at h
      obtain ⟨hst, hr⟩ := h
      subst hst
      subst hr
      refine ⟨?_, ?_, ?_⟩
      · simp only [ServiceMgr.startup, hid, alookup_ainsert_self]
      · exact alookup_ainsert_self _ _ _
      · intro _ hcount
        exact countKey_ainsert_fresh _ _ _ hcount

/-- Witness for C1: scenario S1 — service 7 over TCP with
`ProxyAddrs(9000, "gw", 443)`; the second `startup` (passing different
addresses) returns the stored addresses with no state change, and the
proxy map holds one entry for service 7. -/
theorem client_startup_idempotent_witness :
    ServiceMgr.startup
      ⟨[(7, ⟨Transport.TCP, 9000⟩)],
       [(7, ⟨⟨7, "svc7", Transport.TCP, "h", 80⟩, 9000, "gw", 443⟩)],
       [(7, ())], [(7, ⟨9000, "gw", 443⟩)], []⟩
      ⟨7, "svc7", Transport.TCP, "h", 80⟩ ⟨1234, "other", 1⟩
      = (⟨[(7, ⟨Transport.TCP, 9000⟩)],
          [(7, ⟨⟨7, "svc7", Transport.TCP, "h", 80⟩, 9000, "gw", 443⟩)],
          [(7, ())], [(7, ⟨9000, "gw", 443⟩)], []⟩,
         .ok ⟨9000, "gw", 443⟩) ∧
    countKey
      (⟨[(7, ⟨Transport.TCP, 9000⟩)],
        [(7, ⟨⟨7, "svc7", Transport.TCP, "h", 80⟩, 9000, "gw", 443⟩)],
        [(7, ())], [(7, ⟨9000, "gw", 443⟩)], []⟩ : ServiceMgr).service_proxies 7 = 1 := by
  have h := client_startup_idempotent
    ⟨[], [], [], [], []⟩
    ⟨[(7, ⟨Transport.TCP, 9000⟩)],
     [(7, ⟨⟨7, "svc7", Transport.TCP, "h", 80⟩, 9000, "gw", 443⟩)],
     [(7, ())], [(7, ⟨9000, "gw", 443⟩)], []⟩
    ⟨7, "svc7", Transport.TCP, "h", 80⟩ ⟨7, "svc7", Transport.TCP, "h", 80⟩
    ⟨9000, "gw", 443⟩ ⟨1234, "other", 1⟩ ⟨9000, "gw", 443⟩
    rfl rfl
  exact ⟨h.1, h.2.2 rfl rfl⟩

/-- Counterexample to C2 as stated: a configured range ending at the
`u16` maximum defeats exhaustion.  With the one-slot range
`[65535, 65535]`, starting service 1 allocates port 65535 and the `u16`
counter `next_service_port += 1` wraps to 0, so `next > last` never holds
again: starting the further, not-yet-started service 2 returns `Ok` with
port 0 — no error containing `"exhausted"`, and the maps do change.  (A
debug build would panic on the overflow instead; either way no
exhaustion `Err` is returned.) -/
theorem gateway_port_wrap_counterexample :
    (GatewayServiceMgr.startup
      ⟨[], [], [], [], [], none, 65535, 65535, some "gw"⟩
      ⟨1, "s1", Transport.TCP, "h", 80⟩).2 = .ok (some "gw", 65535) ∧
    (GatewayServiceMgr.startup
      ⟨[], [], [], [], [], none, 65535, 65535, some "gw"⟩
      ⟨1, "s1", Transport.TCP, "h", 80⟩).1.next_service_port = 0 ∧
    (GatewayServiceMgr.startup
      (GatewayServiceMgr.startup
        ⟨[], [], [], [], [], none, 65535, 65535, some "gw"⟩
        ⟨1, "s1", Transport.TCP, "h", 80⟩).1
      ⟨2, "s2", Transport.TCP, "h", 81⟩).2 = .ok (some "gw", 0) :=
  ⟨rfl, rfl, rfl⟩

/-- C2 (amended): gateway port exhaustion is a hard error with no state
change, for configured ranges whose end is below `u16::MAX`.  In
distinct-port mode (`shared_service_port = none`) with ports allocated
from `startPort` and `end < 65535` (so the `u16` counter cannot wrap),
once the number of allocated service ports fills the range —
`end - start + 1` services started — a `startup` call for a
not-yet-started `service_id` fails, the error message contains
`"exhausted"`, and the whole manager state (in particular
`service_ports`, `service_proxies` and `service_proxy_visitors`) is
unchanged.  (At `end = 65535` the counter wraps and allocation continues,
as the counterexample shows.) -/
theorem gateway_startup_port_exhaustion (st : GatewayServiceMgr) (service : Service)
    (startPort : Nat)
    (hshared : st.shared_service_port = none)
    (_hlast : st.last_service_port < 65535)
    (hinv : st.next_service_port = startPort + st.service_ports.length)
    (hfull : st.service_ports.length = st.last_service_port - startPort + 1)
    (hle : startPort ≤ st.last_service_port)
    (hfresh : alookup st.service_ports service.service_id = none) :
    GatewayServiceMgr.startup st service
      = (st, .error "Service ports exhausted, please extend range") ∧
    ∃ pre post,
      "Service ports exhausted, please extend range" = pre ++ "exhausted" ++ post :=
  ⟨gateway_startup_exhausted st service startPort hshared hinv hfull hle hfresh,
   ⟨"Service ports ", ", please extend range", rfl⟩⟩

/-- Witness for C2 (amended): scenario S2 — range `[4100, 4102]` (3 slots,
end below `u16::MAX`) filled by services 1, 2, 3; starting service 4 fails
with the exhaustion error and the state is unchanged. -/
theorem gateway_startup_port_exhaustion_witness :
    GatewayServiceMgr.startup
      ⟨[], [], [], [], [(1, 4100), (2, 4101), (3, 4102)], none, 4103, 4102, some "gwhost1"⟩
      ⟨4, "svc4", Transport.TCP, "h", 80⟩
      = (⟨[], [], [], [], [(1, 4100), (2, 4101), (3, 4102)], none, 4103, 4102, some "gwhost1"⟩,
         .error "Service ports exhausted, please extend range") :=
  (gateway_startup_port_exhaustion
    ⟨[], [], [], [], [(1, 4100), (2, 4101), (3, 4102)], none, 4103, 4102, some "gwhost1"⟩
    ⟨4, "svc4", Transport.TCP, "h", 80⟩ 4100 rfl (by decide) rfl rfl (by decide) rfl).1

/-- C3: gateway `shutdown_connections(user_id, service_id)` calls the
per-service visitor's `shutdown_connections` — passing the user filter
through — for exactly the visitors whose service id passes the service
filter (all of them when the filter is `None`), in map order; no call
targets a non-matching service, every call carries the user filter, and
the manager's own maps are untouched. -/
theorem gateway_shutdown_connections_frame (st : GatewayServiceMgr)
    (user_id service_id : Option Nat) :
    (GatewayServiceMgr.shutdown_connections st user_id service_id).2.1
      = (st.service_proxy_visitors.filter
          (fun p => serviceFilterMatches service_id p.1)).map (fun p => (p.1, user_id)) ∧
    ((GatewayServiceMgr.shutdown_connections st user_id service_id).2.1.filter
        (fun c => !serviceFilterMatches service_id c.1)) = [] ∧
    ((GatewayServiceMgr.shutdown_connections st user_id service_id).2.1.map Prod.snd)
      = List.replicate
          ((GatewayServiceMgr.shutdown_connections st user_id service_id).2.1.length) user_id ∧
    (GatewayServiceMgr.shutdown_connections st user_id service_id).1 = st := by
  have hcalls : (GatewayServiceMgr.shutdown_connections st user_id service_id).2.1
      = (st.service_proxy_visitors.filter
          (fun p => serviceFilterMatches service_id p.1)).map (fun p => (p.1, user_id)) := by
    have h := shutdown_calls_foldl user_id service_id st.service_proxy_visitors ([], [])
    simpa [GatewayServiceMgr.shutdown_connections] using h
  refine ⟨hcalls, ?_, ?_, rfl⟩
  · rw [hcalls]
    exact calls_filter_complement user_id service_id st.service_proxy_visitors
  · rw [hcalls]
    have hlen : ((st.service_proxy_visitors.filter
          (fun p => serviceFilterMatches service_id p.1)).map (fun p => (p.1, user_id))).length
        = (st.service_proxy_visitors.filter
            (fun p => serviceFilterMatches service_id p.1)).length := List.length_map _ _
    rw [hlen]
    exact calls_map_snd user_id service_id st.service_proxy_visitors

/-- Counterexample to C4 as stated: the registry is empty, so the proxy
key `"k"` is absent, yet `on_closed_proxy` *does* invoke a visitor's
`remove_proxy_for_key` — the one registered under service id
`18446744073709551615` (`u64::MAX`), because the absent key resolves to
that sentinel value.  The claim's stale case asserts no visitor at all is
invoked. -/
theorem closed_event_sentinel_counterexample :
    alookup
      (⟨[], [(18446744073709551615,
              ⟨⟨18446744073709551615, "svcmax", Transport.TCP, "h", 80⟩,
               some "gwhost1", 4100, true⟩)],
        [], [], [], some 4000, 8200, 8250, some "gwhost1"⟩
          : GatewayServiceMgr).services_by_proxy_key "k" = none ∧
    GatewayServiceMgr.on_closed_proxy
      ⟨[], [(18446744073709551615,
             ⟨⟨18446744073709551615, "svcmax", Transport.TCP, "h", 80⟩,
              some "gwhost1", 4100, true⟩)],
        [], [], [], some 4000, 8200, 8250, some "gwhost1"⟩ "k"
      = [(18446744073709551615, "k")] := by
  constructor
  · rfl
  · rfl

/-- C4 (amended): closed-event routing is exact, and stale-safe up to the
`u64::MAX` sentinel.  When the registry maps the key to service `sid` and
a visitor for `sid` exists, exactly the one call
`remove_proxy_for_key(key)` on that visitor is made; when the key is
absent, the lookup falls back to the sentinel id `u64::MAX`, so no visitor
is invoked provided no visitor is registered under that sentinel id (a
visitor registered under service id `18446744073709551615` would receive
the stale key).  This holds for the gateway `on_closed_proxy` and for the
client event poller alike. -/
theorem closed_event_routing_amended (gst : GatewayServiceMgr) (cst : ServiceMgr)
    (key : String) (sid : Nat) :
    (alookup gst.services_by_proxy_key key = some sid →
      (∃ v, alookup gst.service_proxy_visitors sid = some v) →
      GatewayServiceMgr.on_closed_proxy gst key = [(sid, key)]) ∧
    (alookup gst.services_by_proxy_key key = none →
      alookup gst.service_proxy_visitors u64Max = none →
      GatewayServiceMgr.on_closed_proxy gst key = []) ∧
    (alookup cst.services_by_proxy_key key = some sid →
      (∃ v, alookup cst.service_proxy_visitors sid = some v) →
      ServiceMgr.pollClosedEvent cst key = [(sid, key)]) ∧
    (alookup cst.services_by_proxy_key key = none →
      alookup cst.service_proxy_visitors u64Max = none →
      ServiceMgr.pollClosedEvent cst key = []) := by
  refine ⟨?_, ?_, ?_, ?_⟩
  · rintro hreg ⟨v, hv⟩
    simp [GatewayServiceMgr.on_closed_proxy, hreg, hv]
  · intro hreg hnone
    simp [GatewayServiceMgr.on_closed_proxy, hreg, hnone]
  · rintro hreg ⟨v, hv⟩
    simp [ServiceMgr.pollClosedEvent, hreg, hv]
  · intro hreg hnone
    simp [ServiceMgr.pollClosedEvent, hreg, hnone]

/-- Witness for C4 (amended): scenario S4 — registry `"k200" → 200` with a
service-200 visitor yields exactly the one call to that visitor; an empty
registry with no sentinel visitor yields no call. -/
theorem closed_event_routing_amended_witness :
    GatewayServiceMgr.on_closed_proxy
      ⟨[], [(200, ⟨⟨200, "svc200", Transport.TCP, "h", 80⟩, some "gwhost1", 4100, true⟩)],
        [], [("k200", 200)], [], some 4000, 8200, 8250, some "gwhost1"⟩ "k200"
      = [(200, "k200")] ∧
    GatewayServiceMgr.on_closed_proxy
      ⟨[], [(200, ⟨⟨200, "svc200", Transport.TCP, "h", 80⟩, some "gwhost1", 4100, true⟩)],
        [], [], [], some 4000, 8200, 8250, some "gwhost1"⟩ "k201"
      = [] := by
  constructor
  · exact (closed_event_routing_amended
      ⟨[], [(200, ⟨⟨200, "svc200", Transport.TCP, "h", 80⟩, some "gwhost1", 4100, true⟩)],
        [], [("k200", 200)], [], some 4000, 8200, 8250, some "gwhost1"⟩
      ⟨[], [], [], [], []⟩ "k200" 200).1 rfl
      ⟨⟨⟨200, "svc200", Transport.TCP, "h", 80⟩, some "gwhost1", 4100, true⟩, rfl⟩
  · exact (closed_event_routing_amended
      ⟨[], [(200, ⟨⟨200, "svc200", Transport.TCP, "h", 80⟩, some "gwhost1", 4100, true⟩)],
        [], [], [], some 4000, 8200, 8250, some "gwhost1"⟩
      ⟨[], [], [], [], []⟩ "k201" 200).2.1 rfl rfl

/-- Counterexample to C5 as stated: with a one-slot distinct range
`[4100, 4100]`, service 1 is started (allocating port 4100) and all of its
connections are then shut down — the code's only freeing mechanism.  The
claim says freed allocations do not count toward exhaustion, so with zero
live allocations the next allocation should succeed; instead `startup` for
service 2 fails with the exhaustion error, because `shutdown_connections`
releases nothing: the port counter and `service_ports` map are untouched. -/
theorem port_allocator_free_counterexample :
    (GatewayServiceMgr.startup
      ⟨[], [], [], [], [], none, 4100, 4100, some "gw"⟩
      ⟨1, "s1", Transport.TCP, "h", 80⟩).2 = .ok (some "gw", 4100) ∧
    (GatewayServiceMgr.shutdown_connections
      (GatewayServiceMgr.startup
        ⟨[], [], [], [], [], none, 4100, 4100, some "gw"⟩
        ⟨1, "s1", Transport.TCP, "h", 80⟩).1 none (some 1)).1
      = (GatewayServiceMgr.startup
          ⟨[], [], [], [], [], none, 4100, 4100, some "gw"⟩
          ⟨1, "s1", Transport.TCP, "h", 80⟩).1 ∧
    (GatewayServiceMgr.startup
      (GatewayServiceMgr.shutdown_connections
        (GatewayServiceMgr.startup
          ⟨[], [], [], [], [], none, 4100, 4100, some "gw"⟩
          ⟨1, "s1", Transport.TCP, "h", 80⟩).1 none (some 1)).1
      ⟨2, "s2", Transport.TCP, "h", 81⟩).2
      = .error "Service ports exhausted, please extend range" :=
  ⟨rfl, rfl, rfl⟩

/-- C5 (amended): the distinct-mode port allocator never frees ports.
`shutdown_connections` leaves the manager state — in particular
`service_ports` and `next_service_port` — unchanged; re-calling `startup`
for an already-allocated `service_id` returns its stored port without
consuming a slot; and for configured ranges whose end is below
`u16::MAX = 65535` (at `end = 65535` the `u16` counter wraps and
allocation continues), exhaustion is reached after exactly
`end - start + 1` total allocations, whether or not the allocated
services' connections have since been shut down. -/
theorem port_allocator_amended (st : GatewayServiceMgr) (u s : Option Nat)
    (svc : Service) (p : Nat)
    (hstored : alookup st.service_ports svc.service_id = some p) :
    (GatewayServiceMgr.shutdown_connections st u s).1 = st ∧
    GatewayServiceMgr.startup st svc = (st, .ok (st.gateway_service_host, p)) ∧
    (∀ (st2 : GatewayServiceMgr) (svc2 : Service) (startPort : Nat),
      st2.shared_service_port = none →
      st2.last_service_port < 65535 →
      st2.next_service_port = startPort + st2.service_ports.length →
      st2.service_ports.length = st2.last_service_port - startPort + 1 →
      startPort ≤ st2.last_service_port →
      alookup st2.service_ports svc2.service_id = none →
      GatewayServiceMgr.startup st2 svc2
        = (st2, .error "Service ports exhausted, please extend range")) :=
  ⟨rfl, gateway_startup_stored st svc p hstored,
   fun st2 svc2 startPort h1 _ h2 h3 h4 h5 =>
     gateway_startup_exhausted st2 svc2 startPort h1 h2 h3 h4 h5⟩

/-- Witness for C5 (amended): a manager holding port 4100 for service 7 is
unchanged by `shutdown_connections`; restarting service 7 returns 4100;
and a full range `[4100, 4102]` makes service 4's startup fail. -/
theorem port_allocator_amended_witness :
    (GatewayServiceMgr.shutdown_connections
      ⟨[], [], [], [], [(7, 4100)], none, 4101, 4102, some "gw"⟩ none (some 7)).1
      = ⟨[], [], [], [], [(7, 4100)], none, 4101, 4102, some "gw"⟩ ∧
    GatewayServiceMgr.startup
      ⟨[], [], [], [], [(7, 4100)], none, 4101, 4102, some "gw"⟩
      ⟨7, "svc7", Transport.TCP, "h", 80⟩
      = (⟨[], [], [], [], [(7, 4100)], none, 4101, 4102, some "gw"⟩, .ok (some "gw", 4100)) ∧
    GatewayServiceMgr.startup
      ⟨[], [], [], [], [(1, 4100), (2, 4101), (3, 4102)], none, 4103, 4102, some "gw"⟩
      ⟨4, "svc4", Transport.TCP, "h", 80⟩
      = (⟨[], [], [], [], [(1, 4100), (2, 4101), (3, 4102)], none, 4103, 4102, some "gw"⟩,
         .error "Service ports exhausted, please extend range") := by
  have h := port_allocator_amended
    ⟨[], [], [], [], [(7, 4100)], none, 4101, 4102, some "gw"⟩ none (some 7)
    ⟨7, "svc7", Transport.TCP, "h", 80⟩ 4100 rfl
  exact ⟨h.1, h.2.1,
    h.2.2 ⟨[], [], [], [], [(1, 4100), (2, 4101), (3, 4102)], none, 4103, 4102, some "gw"⟩
      ⟨4, "svc4", Transport.TCP, "h", 80⟩ 4100 rfl (by decide) rfl rfl (by decide) rfl⟩

/-- Counterexample to C6 as stated: an empty `OCTETSTRING` is a valid
encoding for a supported tag, yet `stringify_asn_value` returns the empty
string (the hex rendering of zero bytes), contradicting "its output is a
non-empty string". -/
theorem stringify_empty_octetstring_counterexample :
    validContent ⟨AsnTag.octetString, AsnContent.octetString []⟩ = true ∧
    stringify_asn_value ⟨AsnTag.octetString, AsnContent.octetString []⟩ = .ok "" :=
  ⟨rfl, rfl⟩

/-- C6 (amended): `stringify_asn_value` dispatches totally on the tag.
Every value with a tag outside the supported set fails with the
unsupported-tag error carrying that tag; every supported tag with a valid
encoding (for `INTEGER`, fitting in `i64`) yields `Ok`, and the resulting
string is non-empty whenever the decoded content is non-empty — an empty
octet string or empty text content stringifies to the empty string. -/
theorem stringify_asn_value_amended (a : AsnAny) :
    (∀ n, a.tag = AsnTag.unsupported n →
      stringify_asn_value a = .fail (.unsupportedTag (AsnTag.unsupported n))) ∧
    (validContent a = true →
      ∃ s, stringify_asn_value a = .ok s ∧ (contentNonempty a.content = true → s ≠ "")) := by
  constructor
  · intro n htag
    obtain ⟨t, c⟩ := a
    cases htag
    rfl
  · exact stringify_ok_of_valid a

/-- Witness for C6 (amended): tag value 20 (a `BMPString`, unsupported) is
rejected with the unsupported-tag error; a `UTF8STRING` holding `"user1"`
stringifies to a non-empty `Ok`. -/
theorem stringify_asn_value_amended_witness :
    stringify_asn_value ⟨AsnTag.unsupported 20, AsnContent.utf8String "x"⟩
      = .fail (.unsupportedTag (AsnTag.unsupported 20)) ∧
    ∃ s, stringify_asn_value ⟨AsnTag.utf8String, AsnContent.utf8String "user1"⟩ = .ok s ∧
      (contentNonempty (AsnContent.utf8String "user1") = true → s ≠ "") := by
  constructor
  · exact (stringify_asn_value_amended ⟨AsnTag.unsupported 20, AsnContent.utf8String "x"⟩).1
      20 rfl
  · exact (stringify_asn_value_amended ⟨AsnTag.utf8String, AsnContent.utf8String "user1"⟩).2
      rfl

/-- C7: the claim is right and the code is wrong.  The `Tag::Integer`
branch of `stringify_asn_value` converts through
`as_i64()` followed by `unwrap()`, so an `INTEGER` whose value does not
fit in `i64` — here `2^63` — makes the function panic instead of
returning the `Conversion` error the spec promises. -/
theorem stringify_integer_overflow_panics :
    stringify_asn_value ⟨AsnTag.integer, AsnContent.integer (2 ^ 63)⟩
      = AsnResult.panicked := by
  rw [show stringify_asn_value ⟨AsnTag.integer, AsnContent.integer (2 ^ 63)⟩
      = if fitsI64 (2 ^ 63) then .ok (Int.repr (2 ^ 63)) else .panicked from rfl]
  rw [if_neg]
  intro hfits
  have := hfits.2
  norm_num at this

/-- Counterexample to C8 as stated: a JSON array of two access records
with the same primary key `(100, 200)` loads successfully, but the
repository then holds one record, not two — the second `put` replaces the
first — so the stored count does not equal the array length. -/
theorem repo_load_duplicate_counterexample :
    (InMemAccessRepo.connect_to_datasource []
        (.parsed [⟨100, 200⟩, ⟨100, 200⟩])).2 = .ok () ∧
    (InMemAccessRepo.connect_to_datasource []
        (.parsed [⟨100, 200⟩, ⟨100, 200⟩])).1.length = 1 ∧
    ([(⟨100, 200⟩ : ServiceAccess), ⟨100, 200⟩] : List ServiceAccess).length = 2 :=
  ⟨rfl, rfl, rfl⟩

/-- C8 (amended): repository load fidelity for arrays with pairwise
distinct primary keys.  A successful `connect_to_datasource` on a freshly
constructed in-memory access (resp. service) repository, given a parsed
array whose records have pairwise distinct keys, stores exactly the
array's `(key, record)` pairs in order — hence as many records as the
array has elements, with content equal to the parsed records.  (Duplicate
keys collapse, as later `put`s replace earlier ones.) -/
theorem repo_load_fidelity_amended (aRecords : List ServiceAccess) (sRecords : List Service)
    (ha : (aRecords.map (fun a => (a.user_id, a.service_id))).Nodup)
    (hs : (sRecords.map Service.service_id).Nodup) :
    InMemAccessRepo.connect_to_datasource [] (.parsed aRecords)
      = (aRecords.map (fun a => ((a.user_id, a.service_id), a)), .ok ()) ∧
    (InMemAccessRepo.connect_to_datasource [] (.parsed aRecords)).1.length
      = aRecords.length ∧
    InMemServiceRepo.connect_to_datasource [] (.parsed sRecords)
      = (sRecords.map (fun s => (s.service_id, s)), .ok ()) ∧
    (InMemServiceRepo.connect_to_datasource [] (.parsed sRecords)).1.length
      = sRecords.length := by
  have hafold := foldl_ainsert_eq_map (fun a : ServiceAccess => (a.user_id, a.service_id))
    aRecords [] (by intro r _ hr; simp [akeys] at hr) ha
  have hsfold := foldl_ainsert_eq_map Service.service_id
    sRecords [] (by intro r _ hr; simp [akeys] at hr) hs
  have haeq : InMemAccessRepo.connect_to_datasource [] (.parsed aRecords)
      = (aRecords.map (fun a => ((a.user_id, a.service_id), a)), .ok ()) := by
    simp only [InMemAccessRepo.connect_to_datasource]
    rw [hafold]
    simp
  have hseq : InMemServiceRepo.connect_to_datasource [] (.parsed sRecords)
      = (sRecords.map (fun s => (s.service_id, s)), .ok ()) := by
    simp only [InMemServiceRepo.connect_to_datasource]
    rw [hsfold]
    simp
  refine ⟨haeq, ?_, hseq, ?_⟩
  · rw [haeq]
    exact List.length_map _ _
  · rw [hseq]
    exact List.length_map _ _

/-- Witness for C8 (amended): the two access records `(100, 200)` and
`(101, 202)` and the one service record `200` load into maps of matching
size and content. -/
theorem repo_load_fidelity_amended_witness :
    InMemAccessRepo.connect_to_datasource []
        (.parsed [⟨100, 200⟩, ⟨101, 202⟩])
      = ([((100, 200), ⟨100, 200⟩), ((101, 202), ⟨101, 202⟩)], .ok ()) ∧
    InMemServiceRepo.connect_to_datasource []
        (.parsed [⟨200, "Service200", Transport.TCP, "localhost", 8200⟩])
      = ([(200, ⟨200, "Service200", Transport.TCP, "localhost", 8200⟩)], .ok ()) := by
  have h := repo_load_fidelity_amended
    [⟨100, 200⟩, ⟨101, 202⟩]
    [⟨200, "Service200", Transport.TCP, "localhost", 8200⟩]
    (by decide) (by decide)
  exact ⟨h.1, h.2.2.1⟩

/-- C9: TCP `Connection::shutdown` is terminal and fires `on_shutdown`
exactly once.  From a not-yet-closed connection (with the OS-level stream
shutdown succeeding), the call shuts the stream down once, sets the
`closed` flag, enqueues exactly one `ConnectionEvent::Closed`, invokes the
visitor's `on_shutdown` once and returns `Ok(())`; every later call on the
resulting closed connection returns `Ok(())` with no further stream
shutdown, event, or `on_shutdown` call (the state is unchanged). -/
theorem connection_shutdown_once (st : ConnState) (h : st.closed = false) :
    (Connection.shutdown true st).2 = .ok () ∧
    (Connection.shutdown true st).1.closed = true ∧
    (Connection.shutdown true st).1.stream_shutdowns = st.stream_shutdowns + 1 ∧
    (Connection.shutdown true st).1.events = st.events ++ [ConnectionEvent.Closed] ∧
    (Connection.shutdown true st).1.on_shutdown_calls = st.on_shutdown_calls + 1 ∧
    ∀ b, Connection.shutdown b (Connection.shutdown true st).1
      = ((Connection.shutdown true st).1, .ok ()) := by
  have hred : Connection.shutdown true st
      = ({ closed := true, stream_shutdowns := st.stream_shutdowns + 1,
           events := st.events ++ [ConnectionEvent.Closed],
           on_shutdown_calls := st.on_shutdown_calls + 1 }, .ok ()) := by
    simp [Connection.shutdown, h]
  rw [hred]
  exact ⟨rfl, rfl, rfl, rfl, rfl, fun b => rfl⟩

/-- Witness for C9: a fresh open connection is closed by the first call
and a second call is a no-op. -/
theorem connection_shutdown_once_witness :
    (Connection.shutdown true ⟨false, 0, [], 0⟩).1.closed = true ∧
    (Connection.shutdown true ⟨false, 0, [], 0⟩).1.events = [ConnectionEvent.Closed] ∧
    Connection.shutdown true (Connection.shutdown true ⟨false, 0, [], 0⟩).1
      = ((Connection.shutdown true ⟨false, 0, [], 0⟩).1, .ok ()) :=
  ⟨(connection_shutdown_once ⟨false, 0, [], 0⟩ rfl).2.1,
   (connection_shutdown_once ⟨false, 0, [], 0⟩ rfl).2.2.2.1,
   (connection_shutdown_once ⟨false, 0, [], 0⟩ rfl).2.2.2.2.2 true⟩

/-- C10: repository load is atomic on input errors.  For either in-memory
repository, when `connect_to_datasource` fails because the file cannot be
read or its contents fail to parse as a JSON array of records, the stored
map is exactly the map from before the call — the records are `put` only
after the whole array has parsed, so no partial set is inserted. -/
theorem repo_load_atomic_on_error :
    ∀ (am : List ((Nat × Nat) × ServiceAccess)) (sm : List (Nat × Service)),
      InMemAccessRepo.connect_to_datasource am .readFailure
        = (am, .error "Failed to read file") ∧
      InMemAccessRepo.connect_to_datasource am .parseFailure
        = (am, .error "Failed to parse JSON") ∧
      InMemServiceRepo.connect_to_datasource sm .readFailure
        = (sm, .error "Failed to read file") ∧
      InMemServiceRepo.connect_to_datasource sm .parseFailure
        = (sm, .error "Failed to parse JSON") :=
  fun _ _ => ⟨rfl, rfl, rfl, rfl⟩
